import Mathlib

/-
Verification of the PigListWebApp authentication core.

This file is a shallow embedding of the auth subsystem:
  app/core/security.py     (password hashing, JWT codec)
  app/core/exceptions.py   (error classes and their status codes)
  app/services/user_service.py (create_user, authenticate_user, lookups)
  app/api/auth.py          (register, login, refresh_token endpoints)
  app/api/dependencies.py  (get_current_user)

Conventions of the embedding:
  - Python dicts of JWT claims become association lists (first match wins,
    update replaces in place), mirroring dict.get / dict.update.
  - datetime.utcnow() becomes an explicit integer timestamp parameter (seconds).
  - The JWT wire format is an inductive: a signed token carries its payload,
    signing key and algorithm; any other string is `malformed`.  jwt.encode
    pairs payload with key/alg; jwt.decode checks key and algorithm equality
    (signature verification) and the exp claim (expiry), returning the payload.
    Registered-claim checks of the jose library beyond exp (aud/nbf/iat) are
    not modelled; the service only ever issues string sub/email claims.
  - bcrypt is modelled at its interface: a well-formed bcrypt hash remembers
    the password it hashed and its salt; checkpw on a malformed hash string
    raises ValueError ("Invalid salt"), as the pyca/bcrypt library does.
  - Python exceptions become an Except monad over an Exc type covering the
    PiglistException subclasses that the auth flow uses, FastAPI
    HTTPException, and the builtin ValueError.
  - Database state (the users table) is a list of user rows; functions that
    commit return the updated list.
-/

deriving instance DecidableEq for Except

/-- JSON-like claim values stored in a JWT payload. -/
inductive JValue
  | str (s : String)
  | num (n : Int)
  | bool (b : Bool)
deriving DecidableEq, Repr

/-- A JWT payload: a Python dict from claim names to values. -/
abbrev Claims := List (String × JValue)

/-- Python dict lookup (d.get(key)): first binding of the key, None if absent. -/
def dictGet : Claims → String → Option JValue
  | [], _ => none
  | (k, v) :: rest, key => if k = key then some v else dictGet rest key

/-- Python dict update for one key (d.update entry): replace in place if the
key is present, append otherwise. -/
def dictSet : Claims → String → JValue → Claims
  | [], key, v => [(key, v)]
  | (k, w) :: rest, key, v =>
      if k = key then (key, v) :: rest else (k, w) :: dictSet rest key v

theorem dictGet_dictSet_same (c : Claims) (k : String) (v : JValue) :
    dictGet (dictSet c k v) k = some v := by
  induction c with
  | nil => simp [dictGet, dictSet]
  | cons hd tl ih =>
      obtain ⟨a, w⟩ := hd
      by_cases h : a = k
      · simp [dictGet, dictSet, h]
      · simp [dictGet, dictSet, h, ih]

theorem dictGet_dictSet_other (c : Claims) (k : String) (v : JValue)
    (k2 : String) (h : k2 ≠ k) :
    dictGet (dictSet c k v) k2 = dictGet c k2 := by
  induction c with
  | nil => simp [dictGet, dictSet, Ne.symm h]
  | cons hd tl ih =>
      obtain ⟨a, w⟩ := hd
      by_cases ha : a = k
      · subst ha
        simp [dictGet, dictSet, h, Ne.symm h]
      · by_cases hb : a = k2
        · subst hb
          simp [dictGet, dictSet, h, ha]
        · simp [dictGet, dictSet, ha, hb, ih]

/-- Decimal digit character for d < 10, as Python str() produces. -/
def digitChar (d : Nat) : Char := Char.ofNat (48 + d)

/-- Decimal digits of a natural number, most significant first, with
structural fuel so that it reduces by computation.  natDigits n models the
Python expression str(n) for a nonnegative int n. -/
def natDigitsAux : Nat → Nat → List Char
  | 0, _ => []
  | fuel + 1, n =>
      if n < 10 then [digitChar n]
      else natDigitsAux fuel (n / 10) ++ [digitChar (n % 10)]

/-- Decimal representation of a natural number (Python str(n)). -/
def natDigits (n : Nat) : List Char := natDigitsAux (n + 1) n

/-- Python str() applied to a nonnegative integer user id. -/
def natStr (n : Nat) : String := String.mk (natDigits n)

/-- Value of a decimal digit character, none for a non-digit. -/
def charDigit (c : Char) : Option Nat :=
  if 48 ≤ c.toNat ∧ c.toNat ≤ 57 then some (c.toNat - 48) else none

/-- Accumulating decimal parser over a character list. -/
def parseNatAux : List Char → Nat → Option Nat
  | [], acc => some acc
  | c :: cs, acc =>
      match charDigit c with
      | some d => parseNatAux cs (acc * 10 + d)
      | none => none

/-- Parse a nonempty all-digit character list as a natural number; none
otherwise (Python int() raises ValueError there). -/
def parseNat : List Char → Option Nat
  | [] => none
  | c :: cs => parseNatAux (c :: cs) 0

/-- Python int() applied to a string: optional leading minus sign followed by
decimal digits; anything else raises ValueError, modelled as none.  (The
whitespace stripping and plus-sign handling of int() are not modelled; no
claim depends on them.) -/
def pyIntOfStr (s : String) : Option Int :=
  match s.data with
  | [] => none
  | c :: cs =>
      if c = '-' then (parseNat cs).map (fun n => -(n : Int))
      else (parseNat (c :: cs)).map (fun n => (n : Int))

/-- Python int() applied to a claim value: ints pass through, strings are
parsed, bools coerce (int True = 1). -/
def pyInt : JValue → Option Int
  | .num n => some n
  | .str s => pyIntOfStr s
  | .bool b => some (if b then 1 else 0)

theorem charDigit_digitChar (d : Nat) (h : d < 10) :
    charDigit (digitChar d) = some d := by
  interval_cases d <;> decide

theorem parseNatAux_append (l1 l2 : List Char) (acc : Nat) :
    parseNatAux (l1 ++ l2) acc =
      match parseNatAux l1 acc with
      | some a => parseNatAux l2 a
      | none => none := by
  induction l1 generalizing acc with
  | nil => simp [parseNatAux]
  | cons c cs ih =>
      simp only [List.cons_append, parseNatAux]
      cases charDigit c with
      | some d => exact ih (acc * 10 + d)
      | none => simp

theorem parseNatAux_natDigitsAux (fuel n acc : Nat) (h : n < fuel) :
    parseNatAux (natDigitsAux fuel n) acc =
      some (acc * 10 ^ (natDigitsAux fuel n).length + n) := by
  induction fuel generalizing n acc with
  | zero => omega
  | succ fuel ih =>
      by_cases hn : n < 10
      · simp only [natDigitsAux, if_pos hn, parseNatAux,
          charDigit_digitChar n hn, List.length_singleton]
        norm_num
      · have hdiv : n / 10 < fuel := by omega
        simp only [natDigitsAux, if_neg hn]
        rw [parseNatAux_append]
        rw [ih (n / 10) acc hdiv]
        simp only [parseNatAux, charDigit_digitChar (n % 10) (by omega)]
        simp only [List.length_append, List.length_singleton]
        congr 1
        rw [pow_succ, Nat.add_mul, ← Nat.mul_assoc, Nat.add_assoc]
        congr 1
        omega

theorem natDigitsAux_head (fuel n : Nat) (h : n < fuel) :
    ∃ d cs, d < 10 ∧ natDigitsAux fuel n = digitChar d :: cs := by
  induction fuel generalizing n with
  | zero => omega
  | succ fuel ih =>
      by_cases hn : n < 10
      · exact ⟨n, [], hn, by simp [natDigitsAux, hn]⟩
      · have hdiv : n / 10 < fuel := by omega
        obtain ⟨d, cs, hd, heq⟩ := ih (n / 10) hdiv
        exact ⟨d, cs ++ [digitChar (n % 10)], hd, by
          simp [natDigitsAux, hn, heq]⟩

theorem digitChar_ne_minus (d : Nat) (h : d < 10) : digitChar d ≠ '-' := by
  interval_cases d <;> decide

theorem parseNat_natDigits (n : Nat) : parseNat (natDigits n) = some n := by
  obtain ⟨d, cs, hd, heq⟩ := natDigitsAux_head (n + 1) n (Nat.lt_succ_self n)
  unfold natDigits
  rw [heq, parseNat]
  rw [← heq]
  have := parseNatAux_natDigitsAux (n + 1) n 0 (Nat.lt_succ_self n)
  rw [this]
  simp

/-- Roundtrip: Python int(str(n)) = n for a nonnegative integer n. -/
theorem pyInt_natStr (n : Nat) : pyInt (JValue.str (natStr n)) = some (n : Int) := by
  obtain ⟨d, cs, hd, heq⟩ := natDigitsAux_head (n + 1) n (Nat.lt_succ_self n)
  have hne : digitChar d ≠ '-' := digitChar_ne_minus d hd
  simp only [pyInt, pyIntOfStr, natStr, natDigits]
  rw [heq]
  simp only [if_neg hne]
  rw [← heq]
  have := parseNat_natDigits n
  unfold natDigits at this
  rw [this]
  simp

/-- Process-wide configuration (app/core/config.py), default values as in the
Settings class. -/
structure Settings where
  SECRET_KEY : String
  ALGORITHM : String
  ACCESS_TOKEN_EXPIRE_MINUTES : Nat
  REFRESH_TOKEN_EXPIRE_MINUTES : Nat
deriving DecidableEq, Repr

/-- Default settings instance (app/core/config.py, settings = Settings()). -/
def settings : Settings :=
  { SECRET_KEY := "your-secret-key-change-in-production"
    ALGORITHM := "HS256"
    ACCESS_TOKEN_EXPIRE_MINUTES := 240
    REFRESH_TOKEN_EXPIRE_MINUTES := 43200 }

/-- JWT wire format: a token either is a well-formed JWT signed with some key
and algorithm and carrying a payload, or it is a malformed string.  jwt.encode
produces the signed form; a signed form verifies against a key and algorithm
exactly when they equal the ones it was signed with. -/
inductive TokenWire
  | signed (payload : Claims) (key : String) (alg : String)
  | malformed (raw : String)
deriving DecidableEq, Repr

/-- Payload of a signed token (empty for a malformed string); used only to
state properties about tokens the service itself issued, which are always
signed. -/
def TokenWire.payloadOf : TokenWire → Claims
  | .signed p _ _ => p
  | .malformed _ => []

/-- Expiry validation performed by jose jwt.decode: if an exp claim is
present it must convert to an integer not in the past (zero leeway);
a non-convertible exp claim makes the token invalid. -/
def expOk (payload : Claims) (now : Int) : Bool :=
  match dictGet payload "exp" with
  | none => true
  | some v =>
      match pyInt v with
      | some e => decide (now ≤ e)
      | none => false

/-- Expiry timestamp computed by create_access_token: now + expires_delta,
defaulting to ACCESS_TOKEN_EXPIRE_MINUTES minutes.  Timestamps and deltas are
in seconds. -/
def access_token_expire (now : Int) (expires_delta : Option Int) : Int :=
  match expires_delta with
  | some d => now + d
  | none => now + (settings.ACCESS_TOKEN_EXPIRE_MINUTES : Int) * 60

/-- Expiry timestamp computed by create_refresh_token:
now + REFRESH_TOKEN_EXPIRE_MINUTES minutes. -/
def refresh_token_expire (now : Int) : Int :=
  now + (settings.REFRESH_TOKEN_EXPIRE_MINUTES : Int) * 60

/-- Embeds create_access_token (app/core/security.py lines 55-97): copy the
claims, add exp = now + expires_delta (default ACCESS_TOKEN_EXPIRE_MINUTES
minutes) and type = "access", sign with the process secret.  Timestamps are
seconds; expires_delta is given in seconds. -/
def create_access_token (data : Claims) (now : Int) (expires_delta : Option Int) : TokenWire :=
  let to_encode := dictSet (dictSet data "exp" (JValue.num (access_token_expire now expires_delta)))
    "type" (JValue.str "access")
  TokenWire.signed to_encode settings.SECRET_KEY settings.ALGORITHM

/-- Embeds create_refresh_token (app/core/security.py lines 99-133): copy the
claims, add exp = now + REFRESH_TOKEN_EXPIRE_MINUTES minutes and
type = "refresh", sign with the process secret. -/
def create_refresh_token (data : Claims) (now : Int) : TokenWire :=
  let to_encode := dictSet (dictSet data "exp" (JValue.num (refresh_token_expire now)))
    "type" (JValue.str "refresh")
  TokenWire.signed to_encode settings.SECRET_KEY settings.ALGORITHM

/-- Embeds decode_token (app/core/security.py lines 135-158): jwt.decode with
the process secret and algorithm list [ALGORITHM]; every JWTError (bad
signature, malformed token, expired token) is caught and returns None. -/
def decode_token (token : TokenWire) (now : Int) : Option Claims :=
  match token with
  | .malformed _ => none
  | .signed payload key alg =>
      if key = settings.SECRET_KEY ∧ alg = settings.ALGORITHM ∧ expOk payload now = true
      then some payload
      else none

/-- Model of a bcrypt hash string, at the interface level of the pyca/bcrypt
library: a well-formed hash produced by bcrypt.hashpw remembers the hashed
password and the salt; every other string is malformed. -/
inductive BcryptStr
  | wellFormed (password : String) (salt : Nat)
  | malformed (raw : String)
deriving DecidableEq, Repr

/-- Model of bcrypt.checkpw from the pyca/bcrypt library: on a malformed hash
string it raises ValueError ("Invalid salt"); on a well-formed hash it
recomputes with the embedded salt and compares in constant time, which is
observationally whether the password equals the hashed one. -/
def checkpw (password : String) (hashed : BcryptStr) : Except String Bool :=
  match hashed with
  | .malformed _ => .error "Invalid salt"
  | .wellFormed p _ => .ok (password == p)

/-- Embeds verify_password (app/core/security.py lines 18-33): a direct call
to bcrypt.checkpw with no exception handling, so the ValueError of checkpw on
a malformed hash propagates to the caller. -/
def verify_password (plain_password : String) (hashed_password : BcryptStr) : Except String Bool :=
  checkpw plain_password hashed_password

/-- Embeds get_password_hash (app/core/security.py lines 36-52): bcrypt.gensalt
draws a fresh salt (passed here explicitly) and hashpw derives the hash. -/
def get_password_hash (password : String) (salt : Nat) : BcryptStr :=
  BcryptStr.wellFormed password salt

/-- A row of the users table (app/models/user.py). -/
structure User where
  id : Nat
  email : String
  password_hash : BcryptStr
  display_name : String
  is_active : Bool
  created_at : Int
  last_login : Option Int
deriving DecidableEq, Repr

/-- The users table. -/
abbrev Db := List User

/-- Embeds get_user_by_id (app/services/user_service.py lines 19-34): select
where User.id == user_id.  The id column is a nonnegative integer; the lookup
key is the Python int produced by int(sub-claim), hence an Int here. -/
def get_user_by_id (db : Db) (user_id : Int) : Option User :=
  db.find? (fun u => (u.id : Int) == user_id)

/-- Embeds get_user_by_email (app/services/user_service.py lines 36-54):
select where User.email == email, a case-sensitive exact string match. -/
def get_user_by_email (db : Db) (email : String) : Option User :=
  db.find? (fun u => u.email == email)

/-- Database-assigned autoincrement id for a new row, modelled as one more
than the largest existing id. -/
def nextId (db : Db) : Nat :=
  (db.foldr (fun u m => max u.id m) 0) + 1

/-- Commit of an in-place mutation of one user row: replace the row with the
same id. -/
def updateUser (db : Db) (u2 : User) : Db :=
  db.map (fun u => if u.id = u2.id then u2 else u)

/-- Exceptions crossing the auth flow: the PiglistException subclasses it
raises (app/core/exceptions.py, each carrying its status_code), the FastAPI
HTTPException raised by the endpoints, and the builtin ValueError (raised by
bcrypt.checkpw on a malformed hash and by int() on a non-numeric string). -/
inductive Exc
  | unauthorizedError (message : String)
  | conflictError (message : String)
  | notFoundError (message : String)
  | httpException (statusCode : Nat) (detail : String)
  | valueError (message : String)
deriving DecidableEq, Repr

/-- Transport status code of an exception: the status_code attribute of the
PiglistException subclasses (app/core/exceptions.py: Unauthorized 401,
Conflict 409, NotFound 404), the explicit code of an HTTPException, and 500
for an uncaught ValueError (the generic branch of error_handler_middleware).
-/
def Exc.status_code : Exc → Nat
  | .unauthorizedError _ => 401
  | .conflictError _ => 409
  | .notFoundError _ => 404
  | .httpException s _ => s
  | .valueError _ => 500

/-- Python str.strip() on the display name: drop leading and trailing
whitespace characters, defined structurally over the character list so it
reduces by computation. -/
def pyStrip (s : String) : String :=
  String.mk (((s.data.dropWhile Char.isWhitespace).reverse.dropWhile Char.isWhitespace).reverse)

/-- Registration request payload (app/schemas/user.py UserCreate), after the
schema validation of the excluded layer. -/
structure UserCreate where
  email : String
  password : String
  display_name : String
deriving DecidableEq, Repr

/-- Embeds authenticate_user (app/services/user_service.py lines 107-160):
look up by email (absent: Unauthorized "Invalid email or password"), verify
the password (mismatch: the same message; a ValueError from bcrypt on a
malformed stored hash propagates), check is_active (inactive: Unauthorized
"User account is inactive"), then set last_login = now and commit. -/
def authenticate_user (db : Db) (email password : String) (now : Int) :
    Except Exc (User × Db) :=
  match get_user_by_email db email with
  | none => .error (.unauthorizedError "Invalid email or password")
  | some user =>
      match verify_password password user.password_hash with
      | .error m => .error (.valueError m)
      | .ok ok =>
          if ok = false then .error (.unauthorizedError "Invalid email or password")
          else if user.is_active = false then .error (.unauthorizedError "User account is inactive")
          else
            let user2 := { user with last_login := some now }
            .ok (user2, updateUser db user2)

/-- Embeds create_user (app/services/user_service.py lines 56-105): raise
ConflictError if the email is already present (before any insert, so the
table is unchanged on that path), else insert a new row with the hashed
password, stripped display name, is_active = true, created_at = now,
last_login null.  The salt drawn by bcrypt.gensalt is passed explicitly. -/
def create_user (db : Db) (user_data : UserCreate) (salt : Nat) (now : Int) :
    (Except Exc User) × Db :=
  match get_user_by_email db user_data.email with
  | some _ =>
      (.error (.conflictError ("User with email " ++ user_data.email ++ " already exists")), db)
  | none =>
      let u : User :=
        { id := nextId db
          email := user_data.email
          password_hash := get_password_hash user_data.password salt
          display_name := pyStrip user_data.display_name
          is_active := true
          created_at := now
          last_login := none }
      (.ok u, db ++ [u])

/-- Token pair response schema (app/schemas/user.py Token). -/
structure Token where
  access_token : TokenWire
  refresh_token : TokenWire
  token_type : String
deriving DecidableEq, Repr

/-- Embeds the register endpoint (app/api/auth.py lines 44-150): create the
user; on success issue an access token with claims sub = str(user.id) and
email = user.email and a refresh token with claim sub = str(user.id), and
return the pair; a ConflictError is caught and re-raised as
HTTPException(status_code = 400); any other exception is logged and
re-raised unchanged.  The Redis session write has no effect on the users
table or the returned tokens and is not modelled. -/
def register (db : Db) (user_data : UserCreate) (salt : Nat) (now : Int) :
    (Except Exc Token) × Db :=
  match create_user db user_data salt now with
  | (.error (.conflictError m), db2) => (.error (.httpException 400 m), db2)
  | (.error e, db2) => (.error e, db2)
  | (.ok user, db2) =>
      let access := create_access_token
        [("sub", JValue.str (natStr user.id)), ("email", JValue.str user.email)] now none
      let refresh := create_refresh_token [("sub", JValue.str (natStr user.id))] now
      (.ok { access_token := access, refresh_token := refresh, token_type := "bearer" }, db2)

/-- Embeds the login endpoint (app/api/auth.py lines 158-271): authenticate,
then issue a token pair exactly as register does; an UnauthorizedError is
caught and re-raised as HTTPException(status_code = 401, detail = str(e));
any other exception is re-raised unchanged. -/
def login (db : Db) (email password : String) (now : Int) :
    (Except Exc Token) × Db :=
  match authenticate_user db email password now with
  | .error (.unauthorizedError m) => (.error (.httpException 401 m), db)
  | .error e => (.error e, db)
  | .ok (user, db2) =>
      let access := create_access_token
        [("sub", JValue.str (natStr user.id)), ("email", JValue.str user.email)] now none
      let refresh := create_refresh_token [("sub", JValue.str (natStr user.id))] now
      (.ok { access_token := access, refresh_token := refresh, token_type := "bearer" }, db2)

/-- Embeds the refresh_token endpoint (app/api/auth.py lines 279-378): decode
the presented token (None: 401 "Invalid refresh token"); require the type
claim to equal "refresh" (else 401 "invalid token type - expected refresh
token"); require a sub claim (absent: 401 "Invalid token payload"); convert
it with int() (a non-numeric sub raises ValueError, uncaught); load the user
(absent or inactive: 401 "User not found or inactive"); then issue and return
a brand-new pair.  The endpoint never writes the users table and keeps no
record of presented tokens (no blacklist), which its pure read-only type
makes explicit. -/
def refresh_token (db : Db) (tok : TokenWire) (now : Int) : Except Exc Token :=
  match decode_token tok now with
  | none => .error (.httpException 401 "Invalid refresh token")
  | some payload =>
      if dictGet payload "type" ≠ some (JValue.str "refresh") then
        .error (.httpException 401 "invalid token type - expected refresh token")
      else
        match dictGet payload "sub" with
        | none => .error (.httpException 401 "Invalid token payload")
        | some sv =>
            match pyInt sv with
            | none => .error (.valueError "invalid literal for int with base 10")
            | some uid =>
                match get_user_by_id db uid with
                | none => .error (.httpException 401 "User not found or inactive")
                | some user =>
                    if user.is_active = false then
                      .error (.httpException 401 "User not found or inactive")
                    else
                      let access := create_access_token
                        [("sub", JValue.str (natStr user.id)), ("email", JValue.str user.email)] now none
                      let refresh := create_refresh_token [("sub", JValue.str (natStr user.id))] now
                      .ok { access_token := access, refresh_token := refresh, token_type := "bearer" }

/-- Embeds get_current_user (app/api/dependencies.py lines 23-100): decode the
bearer token (None: 401 "Could not validate credentials"); require the type
claim to equal "access" (else 401 "Invalid token type"); require a sub claim
(absent: 401 "Could not validate credentials"); convert it with int() (a
non-numeric sub raises ValueError, uncaught); load the user (absent: 401
"Could not validate credentials"); require is_active (else 403 "User account
is inactive"); return the user. -/
def get_current_user (db : Db) (tok : TokenWire) (now : Int) : Except Exc User :=
  match decode_token tok now with
  | none => .error (.httpException 401 "Could not validate credentials")
  | some payload =>
      if dictGet payload "type" ≠ some (JValue.str "access") then
        .error (.httpException 401 "Invalid token type")
      else
        match dictGet payload "sub" with
        | none => .error (.httpException 401 "Could not validate credentials")
        | some sv =>
            match pyInt sv with
            | none => .error (.valueError "invalid literal for int with base 10")
            | some uid =>
                match get_user_by_id db uid with
                | none => .error (.httpException 401 "Could not validate credentials")
                | some user =>
                    if user.is_active = false then
                      .error (.httpException 403 "User account is inactive")
                    else .ok user

/-- Fixture for claim C1: a user whose account is inactive but whose stored
password hash matches the password "Secret123". -/
def c1_ann : User :=
  { id := 1
    email := "ann@x.com"
    password_hash := BcryptStr.wellFormed "Secret123" 0
    display_name := "Ann"
    is_active := false
    created_at := 0
    last_login := none }

/-- Fixture database for claim C1. -/
def c1_db : Db := [c1_ann]

/-- Claim C1 (counterexample): the claim that authenticate_user fails with the
identical Unauthorized message in all three failure cases is false.  With the
correct password for an inactive account, authenticate_user fails with the
message "User account is inactive", which differs from the generic
"Invalid email or password" returned for an absent email or a wrong password,
so the inactive-account failure is distinguishable by the caller. -/
theorem c1_counterexample :
    authenticate_user c1_db "ann@x.com" "Secret123" 0
      = Except.error (Exc.unauthorizedError "User account is inactive")
    ∧ "User account is inactive" ≠ "Invalid email or password" := by
  decide

/-- Claim C1 (amended): a login attempt that fails because the email is absent
or because password verification fails yields the identical
Unauthorized("Invalid email or password"); an attempt that fails because the
account is inactive (with correct password) yields Unauthorized with the
different message "User account is inactive" — still a 401 Unauthorized, but
with a distinguishable message. -/
theorem c1_failure_messages :
    (∀ (db : Db) (email pw : String) (now : Int),
      get_user_by_email db email = none →
      authenticate_user db email pw now
        = Except.error (Exc.unauthorizedError "Invalid email or password"))
  ∧ (∀ (db : Db) (email pw : String) (now : Int) (u : User),
      get_user_by_email db email = some u →
      verify_password pw u.password_hash = Except.ok false →
      authenticate_user db email pw now
        = Except.error (Exc.unauthorizedError "Invalid email or password"))
  ∧ (∀ (db : Db) (email pw : String) (now : Int) (u : User),
      get_user_by_email db email = some u →
      verify_password pw u.password_hash = Except.ok true →
      u.is_active = false →
      authenticate_user db email pw now
        = Except.error (Exc.unauthorizedError "User account is inactive")) := by
  refine ⟨?_, ?_, ?_⟩
  · intro db email pw now h
    simp [authenticate_user, h]
  · intro db email pw now u h hv
    simp [authenticate_user, h, hv]
  · intro db email pw now u h hv hia
    simp [authenticate_user, h, hv, hia]

/-- Witness for c1_failure_messages: the three branches at concrete inputs. -/
theorem c1_failure_messages_witness :
    authenticate_user c1_db "bob@x.com" "Secret123" 0
      = Except.error (Exc.unauthorizedError "Invalid email or password")
    ∧ authenticate_user c1_db "ann@x.com" "WrongPass" 0
      = Except.error (Exc.unauthorizedError "Invalid email or password")
    ∧ authenticate_user c1_db "ann@x.com" "Secret123" 0
      = Except.error (Exc.unauthorizedError "User account is inactive") :=
  ⟨c1_failure_messages.1 c1_db "bob@x.com" "Secret123" 0 (by decide),
   c1_failure_messages.2.1 c1_db "ann@x.com" "WrongPass" 0 c1_ann (by decide) (by decide),
   c1_failure_messages.2.2 c1_db "ann@x.com" "Secret123" 0 c1_ann (by decide) (by decide) (by decide)⟩

/-- Claim C4 (counterexample): the claim that verify_password never raises and
returns false on a malformed hash is false: on a malformed hash string the
ValueError of bcrypt.checkpw propagates out of verify_password instead of a
false return. -/
theorem c4_counterexample :
    verify_password "pw" (BcryptStr.malformed "nothash") = Except.error "Invalid salt"
    ∧ verify_password "pw" (BcryptStr.malformed "nothash") ≠ Except.ok false := by
  decide

/-- Claim C4 (amended): for every plain password and every well-formed bcrypt
hash, verify_password returns a boolean (whether the password matches) and
never raises; on a malformed or non-bcrypt hash string it raises the
underlying ValueError ("Invalid salt") rather than returning false. -/
theorem c4_verify_password_behavior :
    (∀ (p pw : String) (s : Nat),
      verify_password p (BcryptStr.wellFormed pw s) = Except.ok (p == pw))
  ∧ (∀ (p raw : String),
      verify_password p (BcryptStr.malformed raw) = Except.error "Invalid salt") :=
  ⟨fun _ _ _ => rfl, fun _ _ => rfl⟩

/-- Fixture for claims C5 and C6: a database already holding the email
u@x.com. -/
def c5_u : User :=
  { id := 1
    email := "u@x.com"
    password_hash := BcryptStr.wellFormed "Pw123456" 0
    display_name := "U"
    is_active := true
    created_at := 0
    last_login := none }

/-- Fixture database for claims C5 and C6. -/
def c5_db : Db := [c5_u]

/-- Claim C5 (counterexample): the claim that a duplicate-email Conflict is
transported as HTTP 409 is false: the register endpoint catches the
ConflictError and re-raises HTTPException with status code 400. -/
theorem c5_counterexample :
    (register c5_db { email := "u@x.com", password := "Xy123456", display_name := "V" } 1 0).1
      = Except.error (Exc.httpException 400 "User with email u@x.com already exists")
    ∧ (400 : Nat) ≠ 409 := by
  decide

/-- Claim C5 (amended): when register is called with an email that already
exists, the resulting Conflict failure is transported to the caller as HTTP
status code 400 (the register handler catches ConflictError and re-raises
HTTPException(400)), even though the ConflictError class itself carries
status_code 409. -/
theorem c5_conflict_transported_as_400 :
    ∀ (db : Db) (ud : UserCreate) (salt : Nat) (now : Int) (u : User),
      get_user_by_email db ud.email = some u →
      (register db ud salt now).1
        = Except.error (Exc.httpException 400
            ("User with email " ++ ud.email ++ " already exists"))
      ∧ Exc.status_code (Exc.conflictError
            ("User with email " ++ ud.email ++ " already exists")) = 409 := by
  intro db ud salt now u h
  constructor
  · simp [register, create_user, h]
  · rfl

/-- Witness for c5_conflict_transported_as_400 at a concrete duplicate
registration. -/
theorem c5_conflict_transported_as_400_witness :
    (register c5_db { email := "u@x.com", password := "Zz123456", display_name := "W" } 2 5).1
      = Except.error (Exc.httpException 400 "User with email u@x.com already exists")
    ∧ Exc.status_code (Exc.conflictError "User with email u@x.com already exists") = 409 :=
  c5_conflict_transported_as_400 c5_db
    { email := "u@x.com", password := "Zz123456", display_name := "W" } 2 5 c5_u (by decide)

/-- Claim C6: a registration request whose email already exists in the user
store (case-sensitive exact match) fails with Conflict, and the operation is
atomic on that failure: the users table is unchanged by create_user and by
register (no second row), and register returns no token pair. -/
theorem c6_duplicate_register_atomic :
    ∀ (db : Db) (ud : UserCreate) (salt : Nat) (now : Int) (u : User),
      get_user_by_email db ud.email = some u →
      (create_user db ud salt now).1
        = Except.error (Exc.conflictError
            ("User with email " ++ ud.email ++ " already exists"))
      ∧ (create_user db ud salt now).2 = db
      ∧ (register db ud salt now).2 = db
      ∧ ∀ t, (register db ud salt now).1 ≠ Except.ok t := by
  intro db ud salt now u h
  refine ⟨?_, ?_, ?_, ?_⟩
  · simp [create_user, h]
  · simp [create_user, h]
  · simp [register, create_user, h]
  · intro t
    simp [register, create_user, h]

/-- Witness for c6_duplicate_register_atomic at a concrete duplicate
registration. -/
theorem c6_duplicate_register_atomic_witness :
    (create_user c5_db { email := "u@x.com", password := "Qq123456", display_name := "X" } 3 7).1
      = Except.error (Exc.conflictError "User with email u@x.com already exists")
    ∧ (create_user c5_db { email := "u@x.com", password := "Qq123456", display_name := "X" } 3 7).2 = c5_db
    ∧ (register c5_db { email := "u@x.com", password := "Qq123456", display_name := "X" } 3 7).2 = c5_db
    ∧ ∀ t, (register c5_db { email := "u@x.com", password := "Qq123456", display_name := "X" } 3 7).1
        ≠ Except.ok t :=
  c6_duplicate_register_atomic c5_db
    { email := "u@x.com", password := "Qq123456", display_name := "X" } 3 7 c5_u (by decide)

/-- Claim C7: decode_token is a total function into an optional result — for
every input it returns either the decoded claims or the single invalid signal
None, never an exception — and the three failure causes are indistinguishable:
a malformed token, a signature mismatch (wrong key or algorithm), and an
expired token all yield the same result None. -/
theorem c7_decode_uniform_invalid :
    ∀ now : Int,
      (∀ raw, decode_token (TokenWire.malformed raw) now = none)
    ∧ (∀ (p : Claims) (k a : String), ¬(k = settings.SECRET_KEY ∧ a = settings.ALGORITHM) →
        decode_token (TokenWire.signed p k a) now = none)
    ∧ (∀ (p : Claims) (e : Int), dictGet p "exp" = some (JValue.num e) → e < now →
        decode_token (TokenWire.signed p settings.SECRET_KEY settings.ALGORITHM) now = none)
    ∧ (∀ t, decode_token t now = none ∨ ∃ c, decode_token t now = some c) := by
  intro now
  refine ⟨fun _ => rfl, ?_, ?_, ?_⟩
  · intro p k a h
    rw [decode_token, if_neg]
    intro hc
    exact h ⟨hc.1, hc.2.1⟩
  · intro p e hexp he
    have hek : expOk p now = false := by
      simp [expOk, hexp, pyInt]
      omega
    rw [decode_token, if_neg]
    intro hc
    rw [hek] at hc
    exact Bool.false_ne_true hc.2.2
  · intro t
    cases h : decode_token t now with
    | none => exact Or.inl rfl
    | some c => exact Or.inr ⟨c, rfl⟩

/-- Witness for c7_decode_uniform_invalid: the three failure causes at
concrete inputs, all yielding None. -/
theorem c7_decode_uniform_invalid_witness :
    decode_token (TokenWire.malformed "garbage") 0 = none
    ∧ decode_token (TokenWire.signed [("sub", JValue.str "1")] "wrong-key" "HS256") 0 = none
    ∧ decode_token (TokenWire.signed [("exp", JValue.num (-5))]
        settings.SECRET_KEY settings.ALGORITHM) 0 = none :=
  ⟨(c7_decode_uniform_invalid 0).1 "garbage",
   (c7_decode_uniform_invalid 0).2.1 [("sub", JValue.str "1")] "wrong-key" "HS256" (by decide),
   (c7_decode_uniform_invalid 0).2.2.1 [("exp", JValue.num (-5))] (-5) (by decide) (by decide)⟩

/-- Claim C2: decoding a token produced by create_access_token or
create_refresh_token before its ttl elapses returns exactly the issued claims
extended with the claim type (access / refresh, overriding any caller value)
and an unexpired exp claim: every other claim reads back unchanged, the type
claim is the issuing type, and the exp claim is a timestamp not earlier than
the decode time. -/
theorem c2_issue_decode_roundtrip :
    (∀ (data : Claims) (tIssue tDecode : Int) (delta : Option Int),
      tDecode ≤ access_token_expire tIssue delta →
      ∃ payload, decode_token (create_access_token data tIssue delta) tDecode = some payload
        ∧ dictGet payload "type" = some (JValue.str "access")
        ∧ (∃ e, dictGet payload "exp" = some (JValue.num e) ∧ tDecode ≤ e)
        ∧ ∀ k, k ≠ "type" → k ≠ "exp" → dictGet payload k = dictGet data k)
  ∧ (∀ (data : Claims) (tIssue tDecode : Int),
      tDecode ≤ refresh_token_expire tIssue →
      ∃ payload, decode_token (create_refresh_token data tIssue) tDecode = some payload
        ∧ dictGet payload "type" = some (JValue.str "refresh")
        ∧ (∃ e, dictGet payload "exp" = some (JValue.num e) ∧ tDecode ≤ e)
        ∧ ∀ k, k ≠ "type" → k ≠ "exp" → dictGet payload k = dictGet data k) := by
  constructor
  · intro data tIssue tDecode delta h
    refine ⟨dictSet (dictSet data "exp" (JValue.num (access_token_expire tIssue delta)))
      "type" (JValue.str "access"), ?_, ?_, ?_, ?_⟩
    · have hexp : dictGet (dictSet (dictSet data "exp"
          (JValue.num (access_token_expire tIssue delta))) "type" (JValue.str "access")) "exp"
          = some (JValue.num (access_token_expire tIssue delta)) := by
        rw [dictGet_dictSet_other _ _ _ _ (by decide)]
        exact dictGet_dictSet_same _ _ _
      simp [create_access_token, decode_token, expOk, hexp, pyInt, h]
    · exact dictGet_dictSet_same _ _ _
    · refine ⟨access_token_expire tIssue delta, ?_, h⟩
      rw [dictGet_dictSet_other _ _ _ _ (by decide)]
      exact dictGet_dictSet_same _ _ _
    · intro k hk1 hk2
      rw [dictGet_dictSet_other _ _ _ _ hk1, dictGet_dictSet_other _ _ _ _ hk2]
  · intro data tIssue tDecode h
    refine ⟨dictSet (dictSet data "exp" (JValue.num (refresh_token_expire tIssue)))
      "type" (JValue.str "refresh"), ?_, ?_, ?_, ?_⟩
    · have hexp : dictGet (dictSet (dictSet data "exp"
          (JValue.num (refresh_token_expire tIssue))) "type" (JValue.str "refresh")) "exp"
          = some (JValue.num (refresh_token_expire tIssue)) := by
        rw [dictGet_dictSet_other _ _ _ _ (by decide)]
        exact dictGet_dictSet_same _ _ _
      simp [create_refresh_token, decode_token, expOk, hexp, pyInt, h]
    · exact dictGet_dictSet_same _ _ _
    · refine ⟨refresh_token_expire tIssue, ?_, h⟩
      rw [dictGet_dictSet_other _ _ _ _ (by decide)]
      exact dictGet_dictSet_same _ _ _
    · intro k hk1 hk2
      rw [dictGet_dictSet_other _ _ _ _ hk1, dictGet_dictSet_other _ _ _ _ hk2]

/-- Witness for c2_issue_decode_roundtrip: an access token and a refresh token
issued at time 0 with a sub claim, decoded at time 10, both within their
default ttl. -/
theorem c2_issue_decode_roundtrip_witness :
    (∃ payload, decode_token (create_access_token [("sub", JValue.str "1")] 0 none) 10 = some payload
      ∧ dictGet payload "type" = some (JValue.str "access")
      ∧ (∃ e, dictGet payload "exp" = some (JValue.num e) ∧ (10 : Int) ≤ e)
      ∧ ∀ k, k ≠ "type" → k ≠ "exp" → dictGet payload k = dictGet [("sub", JValue.str "1")] k)
    ∧ (∃ payload, decode_token (create_refresh_token [("sub", JValue.str "1")] 0) 10 = some payload
      ∧ dictGet payload "type" = some (JValue.str "refresh")
      ∧ (∃ e, dictGet payload "exp" = some (JValue.num e) ∧ (10 : Int) ≤ e)
      ∧ ∀ k, k ≠ "type" → k ≠ "exp" → dictGet payload k = dictGet [("sub", JValue.str "1")] k) :=
  ⟨c2_issue_decode_roundtrip.1 [("sub", JValue.str "1")] 0 10 none (by decide),
   c2_issue_decode_roundtrip.2 [("sub", JValue.str "1")] 0 10 (by decide)⟩

/-- Claim C3: for every validly-signed unexpired token, get_current_user
(which requires an access token) rejects it with a 401 Unauthorized whenever
its type claim is anything other than the string "access" — refresh, missing,
or unrecognized — and the refresh endpoint (which requires a refresh token)
rejects it with a 401 Unauthorized whenever its type claim is anything other
than the string "refresh" — access, missing, or unrecognized.  Both are
deterministic functions of the inputs. -/
theorem c3_token_type_discrimination :
    (∀ (db : Db) (payload : Claims) (now : Int),
      expOk payload now = true →
      dictGet payload "type" ≠ some (JValue.str "access") →
      get_current_user db (TokenWire.signed payload settings.SECRET_KEY settings.ALGORITHM) now
        = Except.error (Exc.httpException 401 "Invalid token type"))
  ∧ (∀ (db : Db) (payload : Claims) (now : Int),
      expOk payload now = true →
      dictGet payload "type" ≠ some (JValue.str "refresh") →
      refresh_token db (TokenWire.signed payload settings.SECRET_KEY settings.ALGORITHM) now
        = Except.error (Exc.httpException 401 "invalid token type - expected refresh token")) := by
  constructor
  · intro db payload now hexp htype
    simp [get_current_user, decode_token, hexp, htype]
  · intro db payload now hexp htype
    simp [refresh_token, decode_token, hexp, htype]

/-- Witness for c3_token_type_discrimination: a validly-signed unexpired
refresh-type token and a token with no type claim are both rejected by
get_current_user, and a validly-signed unexpired access-type token and a
token with no type claim are both rejected by the refresh endpoint. -/
theorem c3_token_type_discrimination_witness :
    get_current_user [] (TokenWire.signed [("type", JValue.str "refresh"), ("exp", JValue.num 100)]
        settings.SECRET_KEY settings.ALGORITHM) 0
      = Except.error (Exc.httpException 401 "Invalid token type")
    ∧ get_current_user [] (TokenWire.signed [("exp", JValue.num 100)]
        settings.SECRET_KEY settings.ALGORITHM) 0
      = Except.error (Exc.httpException 401 "Invalid token type")
    ∧ refresh_token [] (TokenWire.signed [("type", JValue.str "access"), ("exp", JValue.num 100)]
        settings.SECRET_KEY settings.ALGORITHM) 0
      = Except.error (Exc.httpException 401 "invalid token type - expected refresh token")
    ∧ refresh_token [] (TokenWire.signed [("exp", JValue.num 100)]
        settings.SECRET_KEY settings.ALGORITHM) 0
      = Except.error (Exc.httpException 401 "invalid token type - expected refresh token") :=
  ⟨c3_token_type_discrimination.1 [] [("type", JValue.str "refresh"), ("exp", JValue.num 100)] 0
      (by decide) (by decide),
   c3_token_type_discrimination.1 [] [("exp", JValue.num 100)] 0 (by decide) (by decide),
   c3_token_type_discrimination.2 [] [("type", JValue.str "access"), ("exp", JValue.num 100)] 0
      (by decide) (by decide),
   c3_token_type_discrimination.2 [] [("exp", JValue.num 100)] 0 (by decide) (by decide)⟩

/-- Claim C9: a refresh token that decodes validly (signed with the process
secret, unexpired at both call times), carries type "refresh" and an integer
sub naming an existing active user, succeeds on two sequential refresh calls
with the same original token.  The refresh endpoint reads the users table and
writes nothing — its type returns no updated store and it keeps no record of
presented tokens (no blacklist) — so the second call runs against the same
state as the first and succeeds until the original token expiry. -/
theorem c9_refresh_twice_both_succeed :
    ∀ (db : Db) (payload : Claims) (now1 now2 uid : Int) (sv : JValue) (u : User),
      dictGet payload "type" = some (JValue.str "refresh") →
      dictGet payload "sub" = some sv →
      pyInt sv = some uid →
      get_user_by_id db uid = some u →
      u.is_active = true →
      expOk payload now1 = true →
      expOk payload now2 = true →
      (∃ t1, refresh_token db (TokenWire.signed payload settings.SECRET_KEY settings.ALGORITHM) now1
        = Except.ok t1)
      ∧ (∃ t2, refresh_token db (TokenWire.signed payload settings.SECRET_KEY settings.ALGORITHM) now2
        = Except.ok t2) := by
  intro db payload now1 now2 uid sv u htype hsub hpy huser hact h1 h2
  constructor
  · simp [refresh_token, decode_token, h1, htype, hsub, hpy, huser, hact]
  · simp [refresh_token, decode_token, h2, htype, hsub, hpy, huser, hact]

/-- Fixture for claims C9 and C8: an active user with id 1 and an inactive
user with id 2. -/
def c9_active : User :=
  { id := 1
    email := "act@x.com"
    password_hash := BcryptStr.wellFormed "Pw123456" 0
    display_name := "Act"
    is_active := true
    created_at := 0
    last_login := none }

/-- Fixture inactive user for claims C9 and C8. -/
def c9_inactive : User :=
  { id := 2
    email := "ina@x.com"
    password_hash := BcryptStr.wellFormed "Pw123456" 0
    display_name := "Ina"
    is_active := false
    created_at := 0
    last_login := none }

/-- Fixture database for claims C9 and C8. -/
def c9_db : Db := [c9_active, c9_inactive]

/-- Witness for c9_refresh_twice_both_succeed: a concrete refresh token for
the active user, presented at times 0 and 1, both within its expiry 100. -/
theorem c9_refresh_twice_both_succeed_witness :
    (∃ t1, refresh_token c9_db (TokenWire.signed
        [("sub", JValue.str "1"), ("type", JValue.str "refresh"), ("exp", JValue.num 100)]
        settings.SECRET_KEY settings.ALGORITHM) 0 = Except.ok t1)
    ∧ (∃ t2, refresh_token c9_db (TokenWire.signed
        [("sub", JValue.str "1"), ("type", JValue.str "refresh"), ("exp", JValue.num 100)]
        settings.SECRET_KEY settings.ALGORITHM) 1 = Except.ok t2) :=
  c9_refresh_twice_both_succeed c9_db
    [("sub", JValue.str "1"), ("type", JValue.str "refresh"), ("exp", JValue.num 100)]
    0 1 1 (JValue.str "1") c9_active
    (by decide) (by decide) (by decide) (by decide) (by decide) (by decide) (by decide)

/-- Fixture token for the C8 counterexample: validly signed, type access,
no exp claim (jose treats a missing exp as unexpired), and a sub claim that
is a string but not an integer numeral. -/
def c8_tok : TokenWire :=
  TokenWire.signed [("sub", JValue.str "abc"), ("type", JValue.str "access")]
    settings.SECRET_KEY settings.ALGORITHM

/-- Claim C8 (counterexample): the claim that for every bearer credential the
request authenticator yields Unauthorized, Forbidden, or the resolved user is
false: a validly-signed unexpired access token whose sub claim is the
non-numeric string "abc" makes get_current_user raise the ValueError of
int(), an uncaught exception that the generic error middleware transports as
500 — neither a 401, nor a 403, nor a success. -/
theorem c8_counterexample :
    get_current_user [] c8_tok 0
      = Except.error (Exc.valueError "invalid literal for int with base 10")
    ∧ Exc.status_code (Exc.valueError "invalid literal for int with base 10") = 500
    ∧ (500 : Nat) ≠ 401 ∧ (500 : Nat) ≠ 403 := by
  decide

/-- Claim C8 (amended): for every bearer credential, get_current_user fails
with 401 Unauthorized if decode fails, fails with 401 Unauthorized if the
type claim is not "access", fails with 401 Unauthorized if the sub claim is
absent, raises an uncaught ValueError (transported as 500) if the sub claim
is present but not an integer numeral — a case unreachable for self-issued
tokens, see claim C10 — fails with 401 Unauthorized if no user with that id
exists, fails with 403 Forbidden if the user exists but is inactive, and
otherwise yields the resolved user record. -/
theorem c8_request_authenticator_ladder :
    ∀ (db : Db) (tok : TokenWire) (now : Int),
      (decode_token tok now = none →
        get_current_user db tok now
          = Except.error (Exc.httpException 401 "Could not validate credentials"))
    ∧ (∀ payload, decode_token tok now = some payload →
        dictGet payload "type" ≠ some (JValue.str "access") →
        get_current_user db tok now
          = Except.error (Exc.httpException 401 "Invalid token type"))
    ∧ (∀ payload, decode_token tok now = some payload →
        dictGet payload "type" = some (JValue.str "access") →
        dictGet payload "sub" = none →
        get_current_user db tok now
          = Except.error (Exc.httpException 401 "Could not validate credentials"))
    ∧ (∀ payload sv, decode_token tok now = some payload →
        dictGet payload "type" = some (JValue.str "access") →
        dictGet payload "sub" = some sv →
        pyInt sv = none →
        get_current_user db tok now
          = Except.error (Exc.valueError "invalid literal for int with base 10"))
    ∧ (∀ payload sv uid, decode_token tok now = some payload →
        dictGet payload "type" = some (JValue.str "access") →
        dictGet payload "sub" = some sv →
        pyInt sv = some uid →
        get_user_by_id db uid = none →
        get_current_user db tok now
          = Except.error (Exc.httpException 401 "Could not validate credentials"))
    ∧ (∀ payload sv uid u, decode_token tok now = some payload →
        dictGet payload "type" = some (JValue.str "access") →
        dictGet payload "sub" = some sv →
        pyInt sv = some uid →
        get_user_by_id db uid = some u →
        u.is_active = false →
        get_current_user db tok now
          = Except.error (Exc.httpException 403 "User account is inactive"))
    ∧ (∀ payload sv uid u, decode_token tok now = some payload →
        dictGet payload "type" = some (JValue.str "access") →
        dictGet payload "sub" = some sv →
        pyInt sv = some uid →
        get_user_by_id db uid = some u →
        u.is_active = true →
        get_current_user db tok now = Except.ok u) := by
  intro db tok now
  refine ⟨?_, ?_, ?_, ?_, ?_, ?_, ?_⟩
  · intro h
    simp [get_current_user, h]
  · intro payload h htype
    simp [get_current_user, h, htype]
  · intro payload h htype hsub
    simp [get_current_user, h, htype, hsub]
  · intro payload sv h htype hsub hpy
    simp [get_current_user, h, htype, hsub, hpy]
  · intro payload sv uid h htype hsub hpy huser
    simp [get_current_user, h, htype, hsub, hpy, huser]
  · intro payload sv uid u h htype hsub hpy huser hact
    simp [get_current_user, h, htype, hsub, hpy, huser, hact]
  · intro payload sv uid u h htype hsub hpy huser hact
    simp [get_current_user, h, htype, hsub, hpy, huser, hact]

/-- Witness for c8_request_authenticator_ladder: all seven branches exercised
at concrete inputs against the fixture database. -/
theorem c8_request_authenticator_ladder_witness :
    get_current_user c9_db (TokenWire.malformed "junk") 0
      = Except.error (Exc.httpException 401 "Could not validate credentials")
    ∧ get_current_user c9_db (TokenWire.signed [("type", JValue.str "refresh")]
        settings.SECRET_KEY settings.ALGORITHM) 0
      = Except.error (Exc.httpException 401 "Invalid token type")
    ∧ get_current_user c9_db (TokenWire.signed [("type", JValue.str "access")]
        settings.SECRET_KEY settings.ALGORITHM) 0
      = Except.error (Exc.httpException 401 "Could not validate credentials")
    ∧ get_current_user c9_db (TokenWire.signed
        [("sub", JValue.str "abc"), ("type", JValue.str "access")]
        settings.SECRET_KEY settings.ALGORITHM) 0
      = Except.error (Exc.valueError "invalid literal for int with base 10")
    ∧ get_current_user c9_db (TokenWire.signed
        [("sub", JValue.str "99"), ("type", JValue.str "access")]
        settings.SECRET_KEY settings.ALGORITHM) 0
      = Except.error (Exc.httpException 401 "Could not validate credentials")
    ∧ get_current_user c9_db (TokenWire.signed
        [("sub", JValue.str "2"), ("type", JValue.str "access")]
        settings.SECRET_KEY settings.ALGORITHM) 0
      = Except.error (Exc.httpException 403 "User account is inactive")
    ∧ get_current_user c9_db (TokenWire.signed
        [("sub", JValue.str "1"), ("type", JValue.str "access")]
        settings.SECRET_KEY settings.ALGORITHM) 0
      = Except.ok c9_active :=
  ⟨(c8_request_authenticator_ladder c9_db (TokenWire.malformed "junk") 0).1 (by decide),
   (c8_request_authenticator_ladder c9_db (TokenWire.signed [("type", JValue.str "refresh")]
      settings.SECRET_KEY settings.ALGORITHM) 0).2.1
      [("type", JValue.str "refresh")] (by decide) (by decide),
   (c8_request_authenticator_ladder c9_db (TokenWire.signed [("type", JValue.str "access")]
      settings.SECRET_KEY settings.ALGORITHM) 0).2.2.1
      [("type", JValue.str "access")] (by decide) (by decide) (by decide),
   (c8_request_authenticator_ladder c9_db (TokenWire.signed
      [("sub", JValue.str "abc"), ("type", JValue.str "access")]
      settings.SECRET_KEY settings.ALGORITHM) 0).2.2.2.1
      [("sub", JValue.str "abc"), ("type", JValue.str "access")] (JValue.str "abc")
      (by decide) (by decide) (by decide) (by decide),
   (c8_request_authenticator_ladder c9_db (TokenWire.signed
      [("sub", JValue.str "99"), ("type", JValue.str "access")]
      settings.SECRET_KEY settings.ALGORITHM) 0).2.2.2.2.1
      [("sub", JValue.str "99"), ("type", JValue.str "access")] (JValue.str "99") 99
      (by decide) (by decide) (by decide) (by decide) (by decide),
   (c8_request_authenticator_ladder c9_db (TokenWire.signed
      [("sub", JValue.str "2"), ("type", JValue.str "access")]
      settings.SECRET_KEY settings.ALGORITHM) 0).2.2.2.2.2.1
      [("sub", JValue.str "2"), ("type", JValue.str "access")] (JValue.str "2") 2 c9_inactive
      (by decide) (by decide) (by decide) (by decide) (by decide) (by decide),
   (c8_request_authenticator_ladder c9_db (TokenWire.signed
      [("sub", JValue.str "1"), ("type", JValue.str "access")]
      settings.SECRET_KEY settings.ALGORITHM) 0).2.2.2.2.2.2
      [("sub", JValue.str "1"), ("type", JValue.str "access")] (JValue.str "1") 1 c9_active
      (by decide) (by decide) (by decide) (by decide) (by decide) (by decide)⟩

/-- Property of an issued token: its sub claim is the decimal string of a
nonnegative integer user id, and Python int() converts it back without
raising. -/
def sub_claim_parses (t : TokenWire) : Prop :=
  ∃ n : Nat, dictGet (TokenWire.payloadOf t) "sub" = some (JValue.str (natStr n))
    ∧ pyInt (JValue.str (natStr n)) = some (n : Int)

theorem sub_claim_parses_access (uid : Nat) (email : String) (now : Int) (delta : Option Int) :
    sub_claim_parses (create_access_token
      [("sub", JValue.str (natStr uid)), ("email", JValue.str email)] now delta) := by
  refine ⟨uid, ?_, pyInt_natStr uid⟩
  simp only [create_access_token, TokenWire.payloadOf]
  rw [dictGet_dictSet_other _ _ _ _ (by decide), dictGet_dictSet_other _ _ _ _ (by decide)]
  simp [dictGet]

theorem sub_claim_parses_refresh (uid : Nat) (now : Int) :
    sub_claim_parses (create_refresh_token [("sub", JValue.str (natStr uid))] now) := by
  refine ⟨uid, ?_, pyInt_natStr uid⟩
  simp only [create_refresh_token, TokenWire.payloadOf]
  rw [dictGet_dictSet_other _ _ _ _ (by decide), dictGet_dictSet_other _ _ _ _ (by decide)]
  simp [dictGet]

/-- Claim C10: every token pair issued by the service — by register, login,
or refresh — carries sub = str(user.id) for an integer user id, so the
int(user_id) conversion performed by get_current_user and by the refresh
endpoint succeeds on every self-issued token: the conversion-error branch is
unreachable under the precondition that the token came from one of these
three operations. -/
theorem c10_issued_sub_always_int :
    (∀ (db : Db) (ud : UserCreate) (salt : Nat) (now : Int) (tok : Token) (db2 : Db),
      register db ud salt now = (Except.ok tok, db2) →
      sub_claim_parses tok.access_token ∧ sub_claim_parses tok.refresh_token)
  ∧ (∀ (db : Db) (email pw : String) (now : Int) (tok : Token) (db2 : Db),
      login db email pw now = (Except.ok tok, db2) →
      sub_claim_parses tok.access_token ∧ sub_claim_parses tok.refresh_token)
  ∧ (∀ (db : Db) (wire : TokenWire) (now : Int) (tok : Token),
      refresh_token db wire now = Except.ok tok →
      sub_claim_parses tok.access_token ∧ sub_claim_parses tok.refresh_token) := by
  refine ⟨?_, ?_, ?_⟩
  · intro db ud salt now tok db2 h
    unfold register at h
    split at h
    · simp at h
    · simp at h
    · simp only [Prod.mk.injEq, Except.ok.injEq] at h
      obtain ⟨htok, -⟩ := h
      subst htok
      exact ⟨sub_claim_parses_access _ _ _ _, sub_claim_parses_refresh _ _⟩
  · intro db email pw now tok db2 h
    unfold login at h
    split at h
    · simp at h
    · simp at h
    · simp only [Prod.mk.injEq, Except.ok.injEq] at h
      obtain ⟨htok, -⟩ := h
      subst htok
      exact ⟨sub_claim_parses_access _ _ _ _, sub_claim_parses_refresh _ _⟩
  · intro db wire now tok h
    unfold refresh_token at h
    split at h
    · simp at h
    · split at h
      · simp at h
      · split at h
        · simp at h
        · split at h
          · simp at h
          · split at h
            · simp at h
            · split at h
              · simp at h
              · simp only [Except.ok.injEq] at h
                subst h
                exact ⟨sub_claim_parses_access _ _ _ _, sub_claim_parses_refresh _ _⟩

/-- Witness for c10_issued_sub_always_int: concrete successful register,
login, and refresh calls, whose issued access and refresh tokens all carry an
integer-parsable sub claim. -/
theorem c10_issued_sub_always_int_witness :
    (sub_claim_parses (TokenWire.signed
        [("sub", JValue.str "1"), ("email", JValue.str "n@x.com"),
         ("exp", JValue.num 14400), ("type", JValue.str "access")]
        settings.SECRET_KEY settings.ALGORITHM)
      ∧ sub_claim_parses (TokenWire.signed
        [("sub", JValue.str "1"), ("exp", JValue.num 2592000), ("type", JValue.str "refresh")]
        settings.SECRET_KEY settings.ALGORITHM))
    ∧ (sub_claim_parses (TokenWire.signed
        [("sub", JValue.str "1"), ("email", JValue.str "act@x.com"),
         ("exp", JValue.num 14407), ("type", JValue.str "access")]
        settings.SECRET_KEY settings.ALGORITHM)
      ∧ sub_claim_parses (TokenWire.signed
        [("sub", JValue.str "1"), ("exp", JValue.num 2592007), ("type", JValue.str "refresh")]
        settings.SECRET_KEY settings.ALGORITHM))
    ∧ (sub_claim_parses (TokenWire.signed
        [("sub", JValue.str "1"), ("email", JValue.str "act@x.com"),
         ("exp", JValue.num 14403), ("type", JValue.str "access")]
        settings.SECRET_KEY settings.ALGORITHM)
      ∧ sub_claim_parses (TokenWire.signed
        [("sub", JValue.str "1"), ("exp", JValue.num 2592003), ("type", JValue.str "refresh")]
        settings.SECRET_KEY settings.ALGORITHM)) :=
  ⟨c10_issued_sub_always_int.1 []
      { email := "n@x.com", password := "Pw123456", display_name := "N" } 5 0
      { access_token := TokenWire.signed
          [("sub", JValue.str "1"), ("email", JValue.str "n@x.com"),
           ("exp", JValue.num 14400), ("type", JValue.str "access")]
          settings.SECRET_KEY settings.ALGORITHM
        refresh_token := TokenWire.signed
          [("sub", JValue.str "1"), ("exp", JValue.num 2592000), ("type", JValue.str "refresh")]
          settings.SECRET_KEY settings.ALGORITHM
        token_type := "bearer" }
      [{ id := 1, email := "n@x.com", password_hash := BcryptStr.wellFormed "Pw123456" 5,
         display_name := "N", is_active := true, created_at := 0, last_login := none }]
      (by decide),
   c10_issued_sub_always_int.2.1 c9_db "act@x.com" "Pw123456" 7
      { access_token := TokenWire.signed
          [("sub", JValue.str "1"), ("email", JValue.str "act@x.com"),
           ("exp", JValue.num 14407), ("type", JValue.str "access")]
          settings.SECRET_KEY settings.ALGORITHM
        refresh_token := TokenWire.signed
          [("sub", JValue.str "1"), ("exp", JValue.num 2592007), ("type", JValue.str "refresh")]
          settings.SECRET_KEY settings.ALGORITHM
        token_type := "bearer" }
      [{ id := 1, email := "act@x.com", password_hash := BcryptStr.wellFormed "Pw123456" 0,
         display_name := "Act", is_active := true, created_at := 0, last_login := some 7 },
       c9_inactive]
      (by decide),
   c10_issued_sub_always_int.2.2 c9_db
      (TokenWire.signed
        [("sub", JValue.str "1"), ("type", JValue.str "refresh"), ("exp", JValue.num 100)]
        settings.SECRET_KEY settings.ALGORITHM) 3
      { access_token := TokenWire.signed
          [("sub", JValue.str "1"), ("email", JValue.str "act@x.com"),
           ("exp", JValue.num 14403), ("type", JValue.str "access")]
          settings.SECRET_KEY settings.ALGORITHM
        refresh_token := TokenWire.signed
          [("sub", JValue.str "1"), ("exp", JValue.num 2592003), ("type", JValue.str "refresh")]
          settings.SECRET_KEY settings.ALGORITHM
        token_type := "bearer" }
      (by decide)⟩
